import Mathlib

/-!
Shallow embedding of the xcontest flight-log viewer core (IGC parser,
statistics engine, waypoint generator, route serializer) and proofs about it.

Modelling conventions:
* JS numbers that can be `NaN` (the results of `parseInt` on malformed text and
  every arithmetic expression built from them) are modelled as `Option ℤ` /
  `Option ℚ` / `Option ℝ`, with `none` playing the role of `NaN`; the helper
  operations propagate `none` exactly as JS arithmetic propagates `NaN`, and
  JS comparisons involving `NaN` (always false) are modelled by matching on
  `some`.
* Finite JS float values are modelled exactly (as `ℚ` where the source only
  does field extraction and exact decimal formatting, as `ℝ` where it does
  trigonometry); float rounding is not modelled.
* Object identity (used by `Array.prototype.indexOf` and by the
  `sampledFixes[last] !== fixes[last]` check in the waypoint generator) is
  modelled by carrying the array index of each fix, since the fix objects in
  an array are pairwise distinct objects identified by their position.
* `Array.prototype.sort` is required to be stable by the ECMAScript spec and a
  numeric comparator `(a, b) => f b - f a` orders by `f` descending, so it is
  modelled by `List.mergeSort` with the boolean relation `f b ≤ f a`.
-/

open scoped Classical

/-! ## JS string and number primitives -/

/-- JS `String.prototype.substr(start, length)` for non-negative arguments. -/
def jsSubstr (s : String) (start len : ℕ) : String :=
  String.mk ((s.data.drop start).take len)

/-- JS `String.prototype.charAt(i)`; out-of-range reads never happen at the
call sites (guarded by the length-35 check), the default is arbitrary. -/
def jsCharAt (s : String) (i : ℕ) : Char :=
  s.data.getD i ' '

/-- JS `String.prototype.startsWith`, on the character list (the byte-level
core implementation does not reduce well in proofs). -/
def strStartsWith (s pre : String) : Bool :=
  pre.data.isPrefixOf s.data

/-- Value of the longest leading digit run, accumulator form. -/
def digitsValAux : List Char → ℕ → ℕ
  | c :: cs, acc => if c.isDigit then digitsValAux cs (acc * 10 + (c.toNat - '0'.toNat)) else acc
  | [], acc => acc

/-- Longest leading digit run as a number; `none` when there is no digit. -/
def leadDigits : List Char → Option ℕ
  | c :: cs => if c.isDigit then some (digitsValAux (c :: cs) 0) else none
  | [] => none

/-- JS `parseInt(s, 10)`: skip leading whitespace, optional sign, then the
longest digit prefix; `none` models the `NaN` result. -/
def jsParseInt (s : String) : Option ℤ :=
  let cs := s.data.dropWhile (fun c => c.isWhitespace)
  match cs with
  | '-' :: rest => (leadDigits rest).map (fun n => -(n : ℤ))
  | '+' :: rest => (leadDigits rest).map (fun n => (n : ℤ))
  | _ => (leadDigits cs).map (fun n => (n : ℤ))

/-- JS `String.prototype.padStart(2, "0")`. -/
def padStart2 (s : String) : String :=
  if 2 ≤ s.length then s else String.mk (List.replicate (2 - s.length) '0') ++ s

/-- JS `String.prototype.trim` (whitespace at both ends removed). -/
def jsTrim (cs : List Char) : List Char :=
  ((cs.dropWhile Char.isWhitespace).reverse.dropWhile Char.isWhitespace).reverse

/-- JS number-to-string for a possibly-`NaN` integer (template literals print
`NaN` for the `NaN` value). -/
def optIntToString : Option ℤ → String
  | some n => toString n
  | none => "NaN"

/-- Rendering of a possibly-`NaN` integer as in
`hours.toString().padStart(2, "0")`. -/
def optIntPad2 : Option ℤ → String
  | some n => padStart2 (toString n)
  | none => "NaN"

/-- JS `Number.prototype.toFixed(n)` on an exact rational value: strip the
sign, round to `n` decimal places with ties away from zero (ECMA-262 picks the
larger candidate after the sign has been stripped), and print with exactly `n`
fraction digits. The rounded scaled value `round(|q| * 10^n)` is computed in
integer arithmetic as `(|num| * 10^n * 2 + den) / (2 * den)`. -/
def qToFixed (n : ℕ) (q : ℚ) : String :=
  let neg := q < 0
  let m : ℕ := (q.num.natAbs * 10 ^ n * 2 + q.den) / (2 * q.den)
  let ip := m / 10 ^ n
  let fp := m % 10 ^ n
  let fpStr := toString fp
  (if neg then "-" else "") ++ toString ip ++
    (if n = 0 then "" else "." ++ String.mk (List.replicate (n - fpStr.length) '0') ++ fpStr)

/-- JS `toFixed` on a possibly-`NaN` value: `NaN.toFixed(n)` is `"NaN"`. -/
def optQToFixed (n : ℕ) : Option ℚ → String
  | some q => qToFixed n q
  | none => "NaN"

/-- JS truncation toward zero (`Math.trunc`, and the rounding used by `%`). -/
noncomputable def jsTrunc (x : ℝ) : ℝ :=
  if 0 ≤ x then (⌊x⌋ : ℝ) else (⌈x⌉ : ℝ)

/-- JS remainder operator `a % b` on numbers: `a - b * trunc (a / b)`. -/
noncomputable def jsMod (a b : ℝ) : ℝ :=
  a - b * jsTrunc (a / b)

/-- JS `Math.atan2(y, x)`, with range `(-π, π]`, modelled via the complex
argument of `x + i y`. -/
noncomputable def jsAtan2 (y x : ℝ) : ℝ :=
  Complex.arg ⟨x, y⟩

/-! ## NaN-propagating arithmetic on optional numbers -/

/-- Addition with `NaN` propagation. -/
def optAdd (a b : Option ℝ) : Option ℝ := do
  let x ← a
  let y ← b
  pure (x + y)

/-- Subtraction with `NaN` propagation. -/
def optSub (a b : Option ℤ) : Option ℤ := do
  let x ← a
  let y ← b
  pure (x - y)

/-- Absolute difference with `NaN` propagation (`Math.abs(x - y)`). -/
def optAbsSub (a b : Option ℤ) : Option ℤ := do
  let x ← a
  let y ← b
  pure |x - y|

/-- `Math.max` on possibly-`NaN` integers. -/
def optMaxI (a b : Option ℤ) : Option ℤ := do
  let x ← a
  let y ← b
  pure (max x y)

/-- `Math.min` on possibly-`NaN` integers. -/
def optMinI (a b : Option ℤ) : Option ℤ := do
  let x ← a
  let y ← b
  pure (min x y)

/-- `Math.max` on possibly-`NaN` rationals. -/
def optMaxQ (a b : Option ℚ) : Option ℚ := do
  let x ← a
  let y ← b
  pure (max x y)

/-- `Math.min` on possibly-`NaN` rationals. -/
def optMinQ (a b : Option ℚ) : Option ℚ := do
  let x ← a
  let y ← b
  pure (min x y)

/-! ## Data model -/

/-- One GPS/barometric fix, as produced by `IGCParser.parseBRecord`.
Numeric fields are `none` when the corresponding JS value is `NaN`. -/
structure FlightFix where
  time : String
  timestamp : Option ℤ
  latitude : Option ℚ
  longitude : Option ℚ
  validity : Bool
  pressureAltitude : Option ℤ
  gnssAltitude : Option ℤ
deriving DecidableEq

/-- Header metadata, as produced by `IGCParser.parseHeader`; `Option` fields
start as `null`, `String` fields start with a placeholder default. -/
structure FlightHeader where
  date : Option String
  pilot : String
  gliderType : String
  gliderReg : String
  gpsDatum : String
  firmwareVersion : Option String
  hardwareVersion : Option String
  loggerType : String
  competitionId : Option String
deriving DecidableEq

/-- Derived statistics, as produced by `IGCParser.calculateFlightStats`. -/
structure FlightStats where
  duration : Option ℤ
  startTime : Option String
  endTime : Option String
  maxAltitude : Option ℤ
  minAltitude : Option ℤ
  takeoffAltitude : Option ℤ
  landingAltitude : Option ℤ
  maxClimb : Option ℚ
  maxSink : Option ℚ
  distance : Option ℝ

/-- Result of `IGCParser.parse` (the unused `task: null` field is omitted). -/
structure FlightData where
  header : FlightHeader
  fixes : List FlightFix
  stats : FlightStats

/-- One generated waypoint (`WaypointGenerator`). -/
structure Waypoint where
  name : String
  lat : Option ℚ
  lng : Option ℚ
  altitude : Option ℤ
  time : String
deriving DecidableEq

namespace IGCParser

/-! ## Header decoding

The header regexes are unanchored JS regexes; they are modelled by explicit
leftmost scans over the character list:
* `/H[FO]XYZ/` as a test is an occurrence scan for the five-character tag;
* `/H[FO]XYZ.*?:(.*)/` extraction finds the leftmost tag occurrence that is
  followed by a colon (the lazy `.*?` stops at the first colon after the tag,
  the greedy `(.*)` captures the rest of the line, and on a tag occurrence
  with no colon after it the regex engine moves to the next start position);
* `/HFDTE(\d{2})(\d{2})(\d{2})/` is a leftmost scan for the literal `HFDTE`
  followed by six digits.
-/

/-- Five-character window predicate for the tag `H[FO]` followed by `a b c`. -/
def isHTag (a b c : Char) (x y z w v : Char) : Bool :=
  x = 'H' && (y = 'F' || y = 'O') && z = a && w = b && v = c

/-- Five-character window predicate for a five-character literal. -/
def isLit5 (a b c d e : Char) (x y z w v : Char) : Bool :=
  x = a && y = b && z = c && w = d && v = e

/-- Does any five-character window satisfy `p`? (Regex test.) -/
def exists5 (p : Char → Char → Char → Char → Char → Bool) : List Char → Bool
  | x :: y :: z :: w :: v :: rest => p x y z w v || exists5 p (y :: z :: w :: v :: rest)
  | _ => false

/-- Everything after the first colon, if any (`.*?:(.*)` after a tag). -/
def afterColon : List Char → Option (List Char)
  | [] => none
  | c :: cs => if c = ':' then some cs else afterColon cs

/-- Capture of the leftmost `p`-window that is followed by a colon. -/
def extract5 (p : Char → Char → Char → Char → Char → Bool) : List Char → Option (List Char)
  | x :: y :: z :: w :: v :: rest =>
      if p x y z w v then
        match afterColon rest with
        | some cap => some cap
        | none => extract5 p (y :: z :: w :: v :: rest)
      else extract5 p (y :: z :: w :: v :: rest)
  | _ => none

/-- Trimmed capture, `none` when the capture is missing or trims to the empty
string (the JS code tests `match && match[1].trim()` before assigning). -/
def extractTrimmed (p : Char → Char → Char → Char → Char → Bool) (cs : List Char) :
    Option String :=
  match extract5 p cs with
  | some cap =>
      let t := String.mk (jsTrim cap)
      if t = "" then none else some t
  | none => none

/-- Leftmost match of `/HFDTE(\d{2})(\d{2})(\d{2})/`: the three two-digit
capture groups (day, month, year). -/
def matchDTE : List Char → Option (String × String × String)
  | 'H' :: 'F' :: 'D' :: 'T' :: 'E' :: d1 :: d2 :: d3 :: d4 :: d5 :: d6 :: rest =>
      if d1.isDigit && d2.isDigit && d3.isDigit && d4.isDigit && d5.isDigit && d6.isDigit then
        some (String.mk [d1, d2], String.mk [d3, d4], String.mk [d5, d6])
      else
        matchDTE ('F' :: 'D' :: 'T' :: 'E' :: d1 :: d2 :: d3 :: d4 :: d5 :: d6 :: rest)
  | _ :: rest => matchDTE rest
  | [] => none

/-- Date string built by the `HFDTE` branch: `` `${"20" + yy}-${mm}-${dd}` ``. -/
def dateString (d m y : String) : String :=
  "20" ++ y ++ "-" ++ m ++ "-" ++ d

/-- The header object before any line has been processed. -/
def initialHeader : FlightHeader :=
  { date := none
    pilot := "Unknown"
    gliderType := "Unknown"
    gliderReg := "Unknown"
    gpsDatum := "WGS84"
    firmwareVersion := none
    hardwareVersion := none
    loggerType := "Unknown"
    competitionId := none }

/-- Effect of one line on the header: the `else if` chain of
`IGCParser.parseHeader`, each branch assigning its field only when its regex
matches (and, for the text fields, when the trimmed capture is non-empty). -/
def updateHeader (h : FlightHeader) (line : String) : FlightHeader :=
  let cs := line.data
  if strStartsWith line "HFDTE" then
    match matchDTE cs with
    | some dmy => { h with date := some (dateString dmy.1 dmy.2.1 dmy.2.2) }
    | none => h
  else if exists5 (isHTag 'P' 'L' 'T') cs then
    match extractTrimmed (isHTag 'P' 'L' 'T') cs with
    | some v => { h with pilot := v }
    | none => h
  else if exists5 (isHTag 'G' 'T' 'Y') cs then
    match extractTrimmed (isHTag 'G' 'T' 'Y') cs with
    | some v => { h with gliderType := v }
    | none => h
  else if exists5 (isHTag 'G' 'I' 'D') cs then
    match extractTrimmed (isHTag 'G' 'I' 'D') cs with
    | some v => { h with gliderReg := v }
    | none => h
  else if exists5 (isHTag 'C' 'I' 'D') cs then
    match extractTrimmed (isHTag 'C' 'I' 'D') cs with
    | some v => { h with competitionId := some v }
    | none => h
  else if strStartsWith line "HFRFW" then
    match extractTrimmed (isLit5 'H' 'F' 'R' 'F' 'W') cs with
    | some v => { h with firmwareVersion := some v }
    | none => h
  else if strStartsWith line "HFRHW" then
    match extractTrimmed (isLit5 'H' 'F' 'R' 'H' 'W') cs with
    | some v => { h with hardwareVersion := some v }
    | none => h
  else h

/-- `IGCParser.parseHeader`: scan every line in order, updating the header. -/
def parseHeader (lines : List String) : FlightHeader :=
  lines.foldl updateHeader initialHeader

end IGCParser

namespace IGCParser

/-! ## Fix decoding and statistics -/

/-- Time-of-day string `` `${hh}:${mm}:${ss}` `` with two-digit padding. -/
def timeOfDayString (h m s : Option ℤ) : String :=
  optIntPad2 h ++ ":" ++ optIntPad2 m ++ ":" ++ optIntPad2 s

/-- `IGCParser.parseBRecord`: decode one fixed-column B record; lines shorter
than 35 characters are rejected with `none` (`return null`). -/
def parseBRecord (line : String) : Option FlightFix :=
  if line.length < 35 then none
  else
    let time := jsSubstr line 1 6
    let hours := jsParseInt (jsSubstr time 0 2)
    let minutes := jsParseInt (jsSubstr time 2 2)
    let seconds := jsParseInt (jsSubstr time 4 2)
    let latDegrees := jsParseInt (jsSubstr line 7 2)
    let latMinutes := jsParseInt (jsSubstr line 9 2)
    let latDecimalMinutes := (jsParseInt (jsSubstr line 11 3)).map (fun n => (n : ℚ) / 1000)
    let latDirection : ℚ := if jsCharAt line 14 = 'N' then 1 else -1
    let latitude : Option ℚ := do
      let d ← latDegrees
      let m ← latMinutes
      let dm ← latDecimalMinutes
      pure (latDirection * ((d : ℚ) + ((m : ℚ) + dm) / 60))
    let lonDegrees := jsParseInt (jsSubstr line 15 3)
    let lonMinutes := jsParseInt (jsSubstr line 18 2)
    let lonDecimalMinutes := (jsParseInt (jsSubstr line 20 3)).map (fun n => (n : ℚ) / 1000)
    let lonDirection : ℚ := if jsCharAt line 23 = 'E' then 1 else -1
    let longitude : Option ℚ := do
      let d ← lonDegrees
      let m ← lonMinutes
      let dm ← lonDecimalMinutes
      pure (lonDirection * ((d : ℚ) + ((m : ℚ) + dm) / 60))
    let validity := jsCharAt line 24
    let pressureAltitude := jsParseInt (jsSubstr line 25 5)
    let gnssAltitude := jsParseInt (jsSubstr line 30 5)
    some
      { time := timeOfDayString hours minutes seconds
        timestamp := do
          let h ← hours
          let m ← minutes
          let s ← seconds
          pure (h * 3600 + m * 60 + s)
        latitude := latitude
        longitude := longitude
        validity := validity = 'A'
        pressureAltitude := pressureAltitude
        gnssAltitude := gnssAltitude }

/-- `IGCParser.toRadians`. -/
noncomputable def toRadians (degrees : ℝ) : ℝ :=
  degrees * Real.pi / 180

/-- `IGCParser.calculateDistance`: haversine great-circle distance in km. -/
noncomputable def calculateDistance (lat1 lon1 lat2 lon2 : ℝ) : ℝ :=
  let R : ℝ := 6371
  let dLat := toRadians (lat2 - lat1)
  let dLon := toRadians (lon2 - lon1)
  let a :=
    Real.sin (dLat / 2) * Real.sin (dLat / 2) +
      Real.cos (toRadians lat1) * Real.cos (toRadians lat2) *
        Real.sin (dLon / 2) * Real.sin (dLon / 2)
  let c := 2 * jsAtan2 (Real.sqrt a) (Real.sqrt (1 - a))
  R * c

/-- Distance between the coordinates of two fixes, `NaN`-propagating. -/
noncomputable def fixPairDistance (a b : FlightFix) : Option ℝ := do
  let la1 ← a.latitude
  let lo1 ← a.longitude
  let la2 ← b.latitude
  let lo2 ← b.longitude
  pure (calculateDistance (la1 : ℝ) (lo1 : ℝ) (la2 : ℝ) (lo2 : ℝ))

/-- `IGCParser.calculateFlightStats`. On an empty fix list all numeric stats
are zero and the time strings are `null`. On a non-empty list the folds start
from the first fix / from zero exactly as the JS loops do (`Math.max` from
`-Infinity` over at least one element equals the fold from the first element,
with `NaN` propagating identically). -/
noncomputable def calculateFlightStats (fixes : List FlightFix) : FlightStats :=
  match fixes with
  | [] =>
      { duration := some 0
        startTime := none
        endTime := none
        maxAltitude := some 0
        minAltitude := some 0
        takeoffAltitude := some 0
        landingAltitude := some 0
        maxClimb := some 0
        maxSink := some 0
        distance := some 0 }
  | f0 :: rest =>
      let all := f0 :: rest
      let lastF := all.getLast (List.cons_ne_nil f0 rest)
      let duration : Option ℤ :=
        match optSub lastF.timestamp f0.timestamp with
        | some d => if d < 0 then some (d + 24 * 3600) else some d
        | none => none
      let maxAltitude := rest.foldl (fun acc f => optMaxI acc f.pressureAltitude) f0.pressureAltitude
      let minAltitude := rest.foldl (fun acc f => optMinI acc f.pressureAltitude) f0.pressureAltitude
      let pairs := all.zip rest
      let climbSink : Option ℚ × Option ℚ :=
        pairs.foldl
          (fun acc p =>
            match optSub p.2.timestamp p.1.timestamp with
            | some td =>
                if 0 < td then
                  let rate : Option ℚ :=
                    (optSub p.2.pressureAltitude p.1.pressureAltitude).map
                      (fun ad => (ad : ℚ) / (td : ℚ) * 60)
                  (optMaxQ acc.1 rate, optMinQ acc.2 rate)
                else acc
            | none => acc)
          (some 0, some 0)
      let distance :=
        pairs.foldl (fun acc p => optAdd acc (fixPairDistance p.1 p.2)) (some 0)
      { duration := duration
        startTime := some f0.time
        endTime := some lastF.time
        maxAltitude := maxAltitude
        minAltitude := minAltitude
        takeoffAltitude := f0.pressureAltitude
        landingAltitude := lastF.pressureAltitude
        maxClimb := climbSink.1
        maxSink := climbSink.2.map (fun q => |q|)
        distance := distance }

/-- The per-line dispatch of `IGCParser.parse`: `B` lines are decoded into
fixes (dropped when the decoder returns `none`), `C` lines and everything else
contribute no fix. -/
def fixOfLine (line : String) : Option FlightFix :=
  if strStartsWith line "B" then parseBRecord line else none

/-- `IGCParser.parse` after the `split("\n")`: header from every line, fixes
from the `B` lines in order, statistics from the fixes. -/
noncomputable def parseLines (lines : List String) : FlightData :=
  let fixes := lines.filterMap fixOfLine
  { header := parseHeader lines
    fixes := fixes
    stats := calculateFlightStats fixes }

/-- `IGCParser.parse` on the raw log text. -/
noncomputable def parse (igcContent : String) : FlightData :=
  parseLines (igcContent.splitOn "\n")

end IGCParser

namespace WaypointGenerator

/-! ## Geometry kernel -/

/-- `WaypointGenerator.calculateHaversineDistance`: haversine distance in km
(same formula as `IGCParser.calculateDistance`, duplicated in the source). -/
noncomputable def calculateHaversineDistance (lat1 lon1 lat2 lon2 : ℝ) : ℝ :=
  let R : ℝ := 6371
  let dLat := (lat2 - lat1) * Real.pi / 180
  let dLon := (lon2 - lon1) * Real.pi / 180
  let a :=
    Real.sin (dLat / 2) * Real.sin (dLat / 2) +
      Real.cos (lat1 * Real.pi / 180) * Real.cos (lat2 * Real.pi / 180) *
        Real.sin (dLon / 2) * Real.sin (dLon / 2)
  let c := 2 * jsAtan2 (Real.sqrt a) (Real.sqrt (1 - a))
  R * c

/-- `WaypointGenerator.calculateBearing`: initial bearing in degrees,
normalised to `[0, 360)` by `(bearing + 360) % 360`. -/
noncomputable def calculateBearing (lat1 lon1 lat2 lon2 : ℝ) : ℝ :=
  let lat1Rad := lat1 * Real.pi / 180
  let lat2Rad := lat2 * Real.pi / 180
  let lonDiffRad := (lon2 - lon1) * Real.pi / 180
  let y := Real.sin lonDiffRad * Real.cos lat2Rad
  let x :=
    Real.cos lat1Rad * Real.sin lat2Rad -
      Real.sin lat1Rad * Real.cos lat2Rad * Real.cos lonDiffRad
  let bearing := jsAtan2 y x * 180 / Real.pi
  jsMod (bearing + 360) 360

/-- `WaypointGenerator.calculateCourseChange`: absolute bearing difference,
reflex-corrected to `[0, 180]`. -/
noncomputable def calculateCourseChange (lat1 lon1 lat2 lon2 lat3 lon3 : ℝ) : ℝ :=
  let bearing1 := calculateBearing lat1 lon1 lat2 lon2
  let bearing2 := calculateBearing lat2 lon2 lat3 lon3
  let diff := |bearing1 - bearing2|
  if diff > 180 then 360 - diff else diff

/-- Haversine distance between two fixes, `NaN`-propagating. -/
noncomputable def fixDistance (a b : FlightFix) : Option ℝ := do
  let la1 ← a.latitude
  let lo1 ← a.longitude
  let la2 ← b.latitude
  let lo2 ← b.longitude
  pure (calculateHaversineDistance (la1 : ℝ) (lo1 : ℝ) (la2 : ℝ) (lo2 : ℝ))

/-- Course change at the middle of three fixes, `NaN`-propagating. -/
noncomputable def fixCourseChange (a b c : FlightFix) : Option ℝ := do
  let la1 ← a.latitude
  let lo1 ← a.longitude
  let la2 ← b.latitude
  let lo2 ← b.longitude
  let la3 ← c.latitude
  let lo3 ← c.longitude
  pure (calculateCourseChange (la1 : ℝ) (lo1 : ℝ) (la2 : ℝ) (lo2 : ℝ) (la3 : ℝ) (lo3 : ℝ))

/-- `WaypointGenerator.calculateTotalDistance`: sum of consecutive haversine
distances (zero for fewer than two fixes). -/
noncomputable def calculateTotalDistance (fixes : List FlightFix) : Option ℝ :=
  if fixes.length < 2 then some 0
  else (fixes.zip fixes.tail).foldl (fun acc p => optAdd acc (fixDistance p.1 p.2)) (some 0)

/-! ## Waypoint budget -/

/-- `WaypointGenerator.getTargetWaypointCount`: interior-waypoint budget from
the flight distance (km) and the optimisation level. The `switch` falls
through to the medium rate for unknown levels. -/
noncomputable def getTargetWaypointCount (distance : ℝ) (level : String) : ℤ :=
  let MAX_WAYPOINTS : ℤ := 15
  let baseCount : ℤ :=
    if level = "low" then min 12 ⌈distance / 15⌉
    else if level = "medium" then min 8 ⌈distance / 25⌉
    else if level = "high" then min 5 ⌈distance / 40⌉
    else min 8 ⌈distance / 25⌉
  let finalCount : ℤ :=
    if distance ≤ 20 then max 2 baseCount
    else if distance ≤ 100 then max 3 (min (MAX_WAYPOINTS - 2) (baseCount + 1))
    else if distance ≤ 300 then max 4 (min (MAX_WAYPOINTS - 2) (baseCount + 2))
    else max 5 (min (MAX_WAYPOINTS - 2) (baseCount + 3))
  min (MAX_WAYPOINTS - 2) finalCount

/-- The turn-detection threshold
`level === "low" ? 30 : (level === "medium" ? 45 : 60)`. -/
def turnThreshold (level : String) : ℝ :=
  if level = "low" then 30 else if level = "medium" then 45 else 60

/-- The guard of the early-return branch `if (maxWaypoints <= 0)`; with a
`NaN` budget (`none`) the JS comparison is false. -/
def budgetNonpositive : Option ℤ → Prop
  | some k => k ≤ 0
  | none => False

/-- The element count taken by `slice(0, maxWaypoints)`; `slice(0, NaN)` is
`slice(0, 0)` in JS. -/
def sliceCount : Option ℤ → ℕ
  | some k => k.toNat
  | none => 0

/-! ## Candidate scan -/

/-- Kind of an interior waypoint candidate. -/
inductive CandKind
  | turn
  | altitude
deriving DecidableEq

/-- An entry of `possibleWaypoints`: the fix, its original array index
(standing for object identity), its importance score and its kind. -/
structure Candidate where
  idx : ℕ
  fix : FlightFix
  importance : ℝ
  kind : CandKind

/-- Candidates contributed by one interior sampled point `cur` with sampled
neighbours `prev` and `next`: skip near-duplicate points (closer than 0.1 km
to the previous sampled point; a `NaN` distance does not skip), then a turn
candidate when the course change exceeds the threshold and an altitude
candidate when both adjacent altitude changes exceed 100 m (comparisons with
`NaN` are false). -/
noncomputable def candidatesAt (th : ℝ) (prev cur next : ℕ × FlightFix) : List Candidate :=
  let distToPrev := fixDistance prev.2 cur.2
  if ∃ d, distToPrev = some d ∧ d < 0.1 then []
  else
    let turnPart : List Candidate :=
      match fixCourseChange prev.2 cur.2 next.2 with
      | some cc => if cc > th then [⟨cur.1, cur.2, cc * 2, CandKind.turn⟩] else []
      | none => []
    let altPart : List Candidate :=
      match optAbsSub cur.2.pressureAltitude prev.2.pressureAltitude,
            optAbsSub next.2.pressureAltitude cur.2.pressureAltitude with
      | some ap, some an =>
          if ap > 100 ∧ an > 100 then
            [⟨cur.1, cur.2, ((ap + an : ℤ) : ℝ) / 50, CandKind.altitude⟩]
          else []
      | _, _ => []
    turnPart ++ altPart

/-- The loop `for (i = 1; i < sampledFixes.length - 1; i++)`: every element
with both neighbours present contributes its candidates, in order. -/
noncomputable def scanCandidates (th : ℝ) : List (ℕ × FlightFix) → List Candidate
  | p :: c :: n :: rest => candidatesAt th p c n ++ scanCandidates th (c :: n :: rest)
  | _ => []

/-- Sampling step: `sampleRate = max(1, floor(n / 200))`, take every
`sampleRate`-th index, then force-append the last fix when the stride missed
it (the source compares object identity, which for array elements is index
equality). The fixes are paired with their original indices. -/
def sampleFixes (fixes : List FlightFix) : List (ℕ × FlightFix) :=
  let n := fixes.length
  let sampleRate := max 1 (n / 200)
  let baseIdx := (List.range n).filter (fun i => i % sampleRate = 0)
  let sampledIdx := if baseIdx.getLast? ≠ some (n - 1) then baseIdx ++ [n - 1] else baseIdx
  sampledIdx.filterMap (fun i => (fixes.get? i).map (fun f => (i, f)))

/-- Comparator `(a, b) => b.importance - a.importance` under a stable sort:
order by importance descending. -/
noncomputable def byImportanceDesc (a b : Candidate) : Bool :=
  decide (b.importance ≤ a.importance)

/-- Comparator `(a, b) => fixes.indexOf(a.fix) - fixes.indexOf(b.fix)` under a
stable sort: order by original position ascending (`indexOf` uses object
identity, modelled by the stored index). -/
def byIndex (a b : Candidate) : Bool :=
  decide (a.idx ≤ b.idx)

/-- Name prefix for a selected candidate. -/
def namePrefixOf : CandKind → String
  | CandKind.turn => "TURN"
  | CandKind.altitude => "WP"

/-- Steps 1-5 and 9 of the interior-waypoint selection: sample, scan for
candidates, rank by importance, keep the first `maxWaypoints`, restore path
order, and name each waypoint with the running count of waypoints already
emitted (the takeoff waypoint counts, so the `k`-th interior waypoint gets
suffix `k + 1`). -/
noncomputable def selectedWaypoints (fixes : List FlightFix) (level : String)
    (maxWaypoints : Option ℤ) : List Waypoint :=
  let sampled := sampleFixes fixes
  let possible := scanCandidates (turnThreshold level) sampled
  let sorted := possible.mergeSort byImportanceDesc
  let selected := sorted.take (sliceCount maxWaypoints)
  let ordered := selected.mergeSort byIndex
  ordered.enum.map
    (fun p =>
      { name := namePrefixOf p.2.kind ++ toString (p.1 + 1)
        lat := p.2.fix.latitude
        lng := p.2.fix.longitude
        altitude := p.2.fix.pressureAltitude
        time := p.2.fix.time })

/-- The takeoff waypoint: a copy of the first fix. -/
def takeoffWaypoint (f : FlightFix) : Waypoint :=
  { name := "TAKEOFF"
    lat := f.latitude
    lng := f.longitude
    altitude := f.pressureAltitude
    time := f.time }

/-- The landing waypoint: a copy of the last fix. -/
def landingWaypoint (f : FlightFix) : Waypoint :=
  { name := "LANDING"
    lat := f.latitude
    lng := f.longitude
    altitude := f.pressureAltitude
    time := f.time }

/-- `WaypointGenerator.generateWaypoints`: empty input gives an empty result;
otherwise the takeoff waypoint, then (unless the budget guard takes the early
return) the selected interior waypoints, then the landing waypoint. The budget
is `getTargetWaypointCount` of the total distance; a `NaN` distance makes the
budget `NaN` (`none`), the guard false and the slice empty. -/
noncomputable def generateWaypoints (fixes : List FlightFix) (level : String) : List Waypoint :=
  match fixes with
  | [] => []
  | takeoff :: rest =>
      let all := takeoff :: rest
      let maxWaypoints : Option ℤ :=
        (calculateTotalDistance all).map (fun d => getTargetWaypointCount d level)
      let landing := all.getLast (List.cons_ne_nil takeoff rest)
      if budgetNonpositive maxWaypoints then
        [takeoffWaypoint takeoff, landingWaypoint landing]
      else
        takeoffWaypoint takeoff ::
          (selectedWaypoints all level maxWaypoints ++ [landingWaypoint landing])

end WaypointGenerator

namespace WaypointGenerator

/-! ## Route serialisation and the QR size policy

`generateGPX` reads `new Date().toISOString()` and the instance field
`currentOptimizationLevel`; both are passed as explicit parameters `now` and
`level`.
-/

/-- One `<wpt>` element of the GPX output. -/
def gpxWptBlock (w : Waypoint) : String :=
  "  <wpt lat=\"" ++ optQToFixed 6 w.lat ++ "\" lon=\"" ++ optQToFixed 6 w.lng ++ "\">\n" ++
    "    <ele>" ++ optIntToString w.altitude ++ "</ele>\n" ++
    "    <name>" ++ w.name ++ "</name>\n" ++
    "  </wpt>\n"

/-- One `<trkpt>` element of the GPX output. -/
def gpxTrkptBlock (w : Waypoint) : String :=
  "      <trkpt lat=\"" ++ optQToFixed 6 w.lat ++ "\" lon=\"" ++ optQToFixed 6 w.lng ++ "\">\n" ++
    "        <ele>" ++ optIntToString w.altitude ++ "</ele>\n" ++
    "      </trkpt>\n"

/-- `WaypointGenerator.generateGPX`: `null` for an empty waypoint list,
otherwise the GPX document. -/
def generateGPX (now level : String) (waypoints : List Waypoint) : Option String :=
  if waypoints.length = 0 then none
  else
    some
      ("<?xml version=\"1.0\" encoding=\"UTF-8\"?>\n" ++
        "<gpx version=\"1.1\" creator=\"IGC Flight Log Viewer\" xmlns=\"http://www.topografix.com/GPX/1/1\">\n" ++
        "  <metadata>\n" ++
        "    <name>Optimized Flight Waypoints (" ++ level ++ ")</name>\n" ++
        "    <time>" ++ now ++ "</time>\n" ++
        "  </metadata>\n" ++
        waypoints.foldl (fun acc w => acc ++ gpxWptBlock w) "" ++
        "  <trk>\n" ++
        "    <name>Optimized Flight Path (" ++ level ++ ")</name>\n" ++
        "    <trkseg>\n" ++
        waypoints.foldl (fun acc w => acc ++ gpxTrkptBlock w) "" ++
        "    </trkseg>\n" ++
        "  </trk>\n" ++
        "</gpx>")

/-- `WaypointGenerator.generateCSV`: header row plus one 6-decimal row per
waypoint; `null` for an empty waypoint list. -/
def generateCSV (waypoints : List Waypoint) : Option String :=
  if waypoints.length = 0 then none
  else
    some
      (waypoints.foldl
        (fun acc w =>
          acc ++ w.name ++ "," ++ optQToFixed 6 w.lat ++ "," ++ optQToFixed 6 w.lng ++ "," ++
            optIntToString w.altitude ++ "\n")
        "name,latitude,longitude,altitude\n")

/-- `WaypointGenerator.generateCompactCSV`: no header row, 5-decimal
coordinates, no altitude; `null` for an empty waypoint list. -/
def generateCompactCSV (waypoints : List Waypoint) : Option String :=
  if waypoints.length = 0 then none
  else
    some
      (waypoints.foldl
        (fun acc w =>
          acc ++ w.name ++ "," ++ optQToFixed 5 w.lat ++ "," ++ optQToFixed 5 w.lng ++ "\n")
        "")

/-- Outcome of `WaypointGenerator.generateQRCode`, stripped of the DOM/QR
rendering collaborator: either no waypoint data, or the "Too many waypoints
for QR code" failure, or a QR encoding of the given text payload. -/
inductive QROutcome
  | noData
  | tooMany
  | qr (payload : String)
deriving DecidableEq

/-- `WaypointGenerator.generateQRCode`: choose the primary payload by format
(anything other than `"gpx"` selects CSV), fall back to compact CSV when the
primary payload exceeds 1500 characters, and fail when the compact payload
still exceeds 1500 characters. The inner `none` arm is unreachable: a
non-`null` primary payload forces a non-empty waypoint list, hence a
non-`null` compact payload. -/
def generateQRCode (now level : String) (waypoints : List Waypoint)
    (format : String) : QROutcome :=
  let data := if format = "gpx" then generateGPX now level waypoints else generateCSV waypoints
  match data with
  | none => QROutcome.noData
  | some d =>
      if 1500 < d.length then
        match generateCompactCSV waypoints with
        | some compact =>
            if 1500 < compact.length then QROutcome.tooMany else QROutcome.qr compact
        | none => QROutcome.noData
      else QROutcome.qr d

end WaypointGenerator

namespace WaypointGenerator

/-! ## Properties of the waypoint budget -/

/-- The budget never exceeds 13 (the final clamp `min(MAX_WAYPOINTS - 2, _)`). -/
lemma getTargetWaypointCount_le_13 (d : ℝ) (level : String) :
    getTargetWaypointCount d level ≤ 13 := by
  simp only [getTargetWaypointCount]
  exact le_trans (min_le_left _ _) (by norm_num)

/-- The budget is always at least 2 (every distance bracket takes a
`max` with a constant that is at least 2). -/
lemma two_le_getTargetWaypointCount (d : ℝ) (level : String) :
    2 ≤ getTargetWaypointCount d level := by
  simp only [getTargetWaypointCount]
  refine le_min (by norm_num) ?_
  split_ifs <;> exact le_trans (by norm_num) (le_max_left _ _)

/-- For a fixed level the budget is non-decreasing in the distance. -/
lemma getTargetWaypointCount_mono (level : String) {d1 d2 : ℝ} (h : d1 ≤ d2) :
    getTargetWaypointCount d1 level ≤ getTargetWaypointCount d2 level := by
  have hceil : ∀ k : ℝ, 0 < k → (⌈d1 / k⌉ : ℤ) ≤ ⌈d2 / k⌉ := by
    intro k hk
    exact Int.ceil_mono (by gcongr)
  have key : ∀ b1 b2 : ℤ, b1 ≤ b2 → b2 ≤ 12 →
      min (15 - 2)
        (if d1 ≤ 20 then max 2 b1
         else if d1 ≤ 100 then max 3 (min (15 - 2) (b1 + 1))
         else if d1 ≤ 300 then max 4 (min (15 - 2) (b1 + 2))
         else max 5 (min (15 - 2) (b1 + 3))) ≤
      min (15 - 2)
        (if d2 ≤ 20 then max 2 b2
         else if d2 ≤ 100 then max 3 (min (15 - 2) (b2 + 1))
         else if d2 ≤ 300 then max 4 (min (15 - 2) (b2 + 2))
         else max 5 (min (15 - 2) (b2 + 3))) := by
    intro b1 b2 hb hcap
    split_ifs <;> first | omega | (exfalso; linarith)
  simp only [getTargetWaypointCount]
  refine key
    (if level = "low" then min 12 ⌈d1 / 15⌉
     else if level = "medium" then min 8 ⌈d1 / 25⌉
     else if level = "high" then min 5 ⌈d1 / 40⌉
     else min 8 ⌈d1 / 25⌉)
    (if level = "low" then min 12 ⌈d2 / 15⌉
     else if level = "medium" then min 8 ⌈d2 / 25⌉
     else if level = "high" then min 5 ⌈d2 / 40⌉
     else min 8 ⌈d2 / 25⌉) ?_ ?_
  · split_ifs <;> exact min_le_min le_rfl (hceil _ (by norm_num))
  · split_ifs <;> exact le_trans (min_le_left _ _) (by norm_num)

end WaypointGenerator

/-! ## Claim theorems -/

/-- C3: for each fixed level in {low, medium, high}, the budget function
`getTargetWaypointCount(distance, level)` is non-decreasing in the distance
over all distances ≥ 0, and its value never exceeds 13. -/
theorem budget_monotone_and_capped (level : String) (d1 d2 : ℝ)
    (hlevel : level = "low" ∨ level = "medium" ∨ level = "high")
    (h0 : 0 ≤ d1) (h12 : d1 ≤ d2) :
    WaypointGenerator.getTargetWaypointCount d1 level ≤
        WaypointGenerator.getTargetWaypointCount d2 level ∧
      WaypointGenerator.getTargetWaypointCount d1 level ≤ 13 :=
  ⟨WaypointGenerator.getTargetWaypointCount_mono level h12,
    WaypointGenerator.getTargetWaypointCount_le_13 d1 level⟩

/-- Witness for C3 at `level = "low"`, `d1 = 0`, `d2 = 1`. -/
theorem budget_monotone_and_capped_witness :
    ("low" = "low" ∨ "low" = "medium" ∨ "low" = "high") ∧ (0 : ℝ) ≤ 0 ∧ (0 : ℝ) ≤ 1 ∧
      (WaypointGenerator.getTargetWaypointCount 0 "low" ≤
          WaypointGenerator.getTargetWaypointCount 1 "low" ∧
        WaypointGenerator.getTargetWaypointCount 0 "low" ≤ 13) :=
  ⟨Or.inl rfl, le_refl 0, by norm_num,
    budget_monotone_and_capped "low" 0 1 (Or.inl rfl) (le_refl 0) (by norm_num)⟩

/-- C9: for every distance ≥ 0 and every level string (including strings
outside {low, medium, high}), `getTargetWaypointCount` returns an integer in
[2, 13]; consequently the early-return guard `maxWaypoints ≤ 0` of
`generateWaypoints` is never satisfied at its call site, where the budget is
computed from the total flight distance. -/
theorem budget_in_range_and_early_return_unreachable (d : ℝ) (level : String)
    (fixes : List FlightFix) (h0 : 0 ≤ d) :
    (2 ≤ WaypointGenerator.getTargetWaypointCount d level ∧
        WaypointGenerator.getTargetWaypointCount d level ≤ 13) ∧
      ¬ WaypointGenerator.budgetNonpositive
          ((WaypointGenerator.calculateTotalDistance fixes).map
            (fun t => WaypointGenerator.getTargetWaypointCount t level)) := by
  refine ⟨⟨WaypointGenerator.two_le_getTargetWaypointCount d level,
    WaypointGenerator.getTargetWaypointCount_le_13 d level⟩, ?_⟩
  cases hcd : WaypointGenerator.calculateTotalDistance fixes with
  | none => simp [WaypointGenerator.budgetNonpositive]
  | some t =>
      have h2 := WaypointGenerator.two_le_getTargetWaypointCount t level
      simp only [Option.map_some', WaypointGenerator.budgetNonpositive]
      omega

/-- Witness for C9 at `d = 0`, `level = "custom"`, `fixes = []`. -/
theorem budget_in_range_and_early_return_unreachable_witness :
    (0 : ℝ) ≤ 0 ∧
      ((2 ≤ WaypointGenerator.getTargetWaypointCount 0 "custom" ∧
          WaypointGenerator.getTargetWaypointCount 0 "custom" ≤ 13) ∧
        ¬ WaypointGenerator.budgetNonpositive
            ((WaypointGenerator.calculateTotalDistance []).map
              (fun t => WaypointGenerator.getTargetWaypointCount t "custom"))) :=
  ⟨le_refl 0, budget_in_range_and_early_return_unreachable 0 "custom" [] (le_refl 0)⟩

/-- C10: for every level string not equal to low, medium or high, the
waypoint budget follows the medium base rate (the switch default) while the
turn-detection threshold is 60 degrees, the value used for level high. -/
theorem unknown_level_mixes_medium_budget_and_high_threshold (level : String) (d : ℝ)
    (h1 : level ≠ "low") (h2 : level ≠ "medium") (h3 : level ≠ "high") :
    WaypointGenerator.getTargetWaypointCount d level =
        WaypointGenerator.getTargetWaypointCount d "medium" ∧
      WaypointGenerator.turnThreshold level = 60 ∧
      WaypointGenerator.turnThreshold "high" = 60 := by
  refine ⟨?_, ?_, ?_⟩
  · simp only [WaypointGenerator.getTargetWaypointCount, if_neg h1, if_neg h2, if_neg h3]
    simp
  · simp [WaypointGenerator.turnThreshold, h1, h2]
  · simp [WaypointGenerator.turnThreshold]

/-- Witness for C10 at `level = "custom"`, `d = 0`. -/
theorem unknown_level_mixes_medium_budget_and_high_threshold_witness :
    ("custom" ≠ "low") ∧ ("custom" ≠ "medium") ∧ ("custom" ≠ "high") ∧
      (WaypointGenerator.getTargetWaypointCount 0 "custom" =
          WaypointGenerator.getTargetWaypointCount 0 "medium" ∧
        WaypointGenerator.turnThreshold "custom" = 60 ∧
        WaypointGenerator.turnThreshold "high" = 60) :=
  ⟨by decide, by decide, by decide,
    unknown_level_mixes_medium_budget_and_high_threshold "custom" 0
      (by decide) (by decide) (by decide)⟩

namespace WaypointGenerator

/-! ## Range of the bearing and course-change functions -/

/-- For a positive dividend, the JS remainder by 360 lies in `[0, 360)`. -/
lemma jsMod_360_bounds {a : ℝ} (ha : 0 < a) : 0 ≤ jsMod a 360 ∧ jsMod a 360 < 360 := by
  have hq : (0 : ℝ) ≤ a / 360 := by positivity
  have htr : jsTrunc (a / 360) = (⌊a / 360⌋ : ℝ) := by
    simp [jsTrunc, hq]
  have hfr : jsMod a 360 = 360 * Int.fract (a / 360) := by
    simp only [jsMod, htr, Int.fract]
    ring
  constructor
  · rw [hfr]
    have := Int.fract_nonneg (a / 360)
    linarith
  · rw [hfr]
    have := Int.fract_lt_one (a / 360)
    linarith

/-- The scaled atan2 term of `calculateBearing`, shifted by 360, is positive. -/
lemma bearing_shift_pos (y x : ℝ) : 0 < jsAtan2 y x * 180 / Real.pi + 360 := by
  have h1 : -Real.pi < jsAtan2 y x := Complex.neg_pi_lt_arg _
  have hpi : (0 : ℝ) < Real.pi := Real.pi_pos
  have h2 : -(180 : ℝ) < jsAtan2 y x * 180 / Real.pi := by
    rw [lt_div_iff₀ hpi]
    linarith
  linarith

/-- `calculateBearing` is normalised into `[0, 360)`. -/
lemma calculateBearing_bounds (lat1 lon1 lat2 lon2 : ℝ) :
    0 ≤ calculateBearing lat1 lon1 lat2 lon2 ∧ calculateBearing lat1 lon1 lat2 lon2 < 360 := by
  simp only [calculateBearing]
  exact jsMod_360_bounds (bearing_shift_pos _ _)

end WaypointGenerator

/-- C8: for any three points (any real latitude/longitude values),
`calculateCourseChange` returns a value in `[0, 180]`: it takes the absolute
difference of the two bearings (each normalised to `[0, 360)`) and replaces it
with 360 minus the difference when the difference exceeds 180. -/
theorem course_change_in_0_180 (lat1 lon1 lat2 lon2 lat3 lon3 : ℝ) :
    WaypointGenerator.calculateCourseChange lat1 lon1 lat2 lon2 lat3 lon3 ∈
      Set.Icc (0 : ℝ) 180 := by
  obtain ⟨hb1l, hb1u⟩ := WaypointGenerator.calculateBearing_bounds lat1 lon1 lat2 lon2
  obtain ⟨hb2l, hb2u⟩ := WaypointGenerator.calculateBearing_bounds lat2 lon2 lat3 lon3
  simp only [WaypointGenerator.calculateCourseChange, Set.mem_Icc]
  have habs : |WaypointGenerator.calculateBearing lat1 lon1 lat2 lon2 -
      WaypointGenerator.calculateBearing lat2 lon2 lat3 lon3| < 360 := by
    rw [abs_lt]
    constructor <;> linarith
  have habs0 : (0 : ℝ) ≤ |WaypointGenerator.calculateBearing lat1 lon1 lat2 lon2 -
      WaypointGenerator.calculateBearing lat2 lon2 lat3 lon3| := abs_nonneg _
  split_ifs with hgt
  · constructor <;> linarith
  · constructor <;> linarith

/-- A concrete fix used by witnesses: the given timestamp, zero coordinates
and altitudes. -/
def witnessFix (ts : ℤ) : FlightFix :=
  { time := ""
    timestamp := some ts
    latitude := some 0
    longitude := some 0
    validity := true
    pressureAltitude := some 0
    gnssAltitude := some 0 }

/-- C4: for every non-empty fix sequence with well-defined first and last
timestamps, the computed duration is the last timestamp minus the first, with
86400 added when that difference is negative. -/
theorem duration_midnight_wrap (f0 : FlightFix) (rest : List FlightFix) (t1 t2 : ℤ)
    (h1 : f0.timestamp = some t1)
    (h2 : ((f0 :: rest).getLast (List.cons_ne_nil f0 rest)).timestamp = some t2) :
    (IGCParser.calculateFlightStats (f0 :: rest)).duration =
      some (if t2 - t1 < 0 then t2 - t1 + 86400 else t2 - t1) := by
  simp only [IGCParser.calculateFlightStats, h1, h2, optSub, Option.bind_eq_bind,
    Option.some_bind]
  norm_num
  split_ifs <;> rfl

/-- Witness for C4: fixes with timestamps `[86300, 86350, 40]` yield duration
`40 + 86400 - 86300 = 140`. -/
theorem duration_midnight_wrap_witness :
    (witnessFix 86300).timestamp = some 86300 ∧
      (([witnessFix 86300, witnessFix 86350, witnessFix 40].getLast
          (List.cons_ne_nil _ _)).timestamp = some 40) ∧
      (IGCParser.calculateFlightStats
          [witnessFix 86300, witnessFix 86350, witnessFix 40]).duration = some 140 := by
  refine ⟨rfl, rfl, ?_⟩
  have h := duration_midnight_wrap (witnessFix 86300) [witnessFix 86350, witnessFix 40]
    86300 40 rfl rfl
  simpa using h

namespace IGCParser

/-! ## Per-field view of header decoding -/

/-- The seven `FlightHeader` fields that `parseHeader` can fill from a line. -/
inductive HField
  | date
  | pilot
  | gliderType
  | gliderReg
  | competitionId
  | firmwareVersion
  | hardwareVersion
deriving DecidableEq

/-- Current value of a header field, uniformly as an `Option` (the `String`
fields with placeholder defaults are always present). -/
def getHeaderField (h : FlightHeader) : HField → Option String
  | HField.date => h.date
  | HField.pilot => some h.pilot
  | HField.gliderType => some h.gliderType
  | HField.gliderReg => some h.gliderReg
  | HField.competitionId => h.competitionId
  | HField.firmwareVersion => h.firmwareVersion
  | HField.hardwareVersion => h.hardwareVersion

/-- The value (if any) that one line writes into one header field: the
branch conditions of the `else if` chain of `updateHeader`, restricted to the
given field. -/
def headerFieldUpdate (f : HField) (line : String) : Option String :=
  let cs := line.data
  match f with
  | HField.date =>
      if strStartsWith line "HFDTE" then
        (matchDTE cs).map (fun dmy => dateString dmy.1 dmy.2.1 dmy.2.2)
      else none
  | HField.pilot =>
      if strStartsWith line "HFDTE" then none
      else if exists5 (isHTag 'P' 'L' 'T') cs then extractTrimmed (isHTag 'P' 'L' 'T') cs
      else none
  | HField.gliderType =>
      if strStartsWith line "HFDTE" then none
      else if exists5 (isHTag 'P' 'L' 'T') cs then none
      else if exists5 (isHTag 'G' 'T' 'Y') cs then extractTrimmed (isHTag 'G' 'T' 'Y') cs
      else none
  | HField.gliderReg =>
      if strStartsWith line "HFDTE" then none
      else if exists5 (isHTag 'P' 'L' 'T') cs then none
      else if exists5 (isHTag 'G' 'T' 'Y') cs then none
      else if exists5 (isHTag 'G' 'I' 'D') cs then extractTrimmed (isHTag 'G' 'I' 'D') cs
      else none
  | HField.competitionId =>
      if strStartsWith line "HFDTE" then none
      else if exists5 (isHTag 'P' 'L' 'T') cs then none
      else if exists5 (isHTag 'G' 'T' 'Y') cs then none
      else if exists5 (isHTag 'G' 'I' 'D') cs then none
      else if exists5 (isHTag 'C' 'I' 'D') cs then extractTrimmed (isHTag 'C' 'I' 'D') cs
      else none
  | HField.firmwareVersion =>
      if strStartsWith line "HFDTE" then none
      else if exists5 (isHTag 'P' 'L' 'T') cs then none
      else if exists5 (isHTag 'G' 'T' 'Y') cs then none
      else if exists5 (isHTag 'G' 'I' 'D') cs then none
      else if exists5 (isHTag 'C' 'I' 'D') cs then none
      else if strStartsWith line "HFRFW" then extractTrimmed (isLit5 'H' 'F' 'R' 'F' 'W') cs
      else none
  | HField.hardwareVersion =>
      if strStartsWith line "HFDTE" then none
      else if exists5 (isHTag 'P' 'L' 'T') cs then none
      else if exists5 (isHTag 'G' 'T' 'Y') cs then none
      else if exists5 (isHTag 'G' 'I' 'D') cs then none
      else if exists5 (isHTag 'C' 'I' 'D') cs then none
      else if strStartsWith line "HFRFW" then none
      else if strStartsWith line "HFRHW" then extractTrimmed (isLit5 'H' 'F' 'R' 'H' 'W') cs
      else none

/-- Processing one line overwrites a field exactly when `headerFieldUpdate`
yields a value for it, and leaves it unchanged otherwise. -/
lemma getHeaderField_updateHeader (f : HField) (h : FlightHeader) (line : String) :
    getHeaderField (updateHeader h line) f =
      match headerFieldUpdate f line with
      | some v => some v
      | none => getHeaderField h f := by
  cases f <;>
    simp only [getHeaderField, updateHeader, headerFieldUpdate] <;>
    (repeat' split) <;>
    simp_all

/-- A run of lines none of which writes the field leaves the field unchanged. -/
lemma getHeaderField_foldl_none (f : HField) (ls : List String) (h : FlightHeader)
    (hnone : ∀ l ∈ ls, headerFieldUpdate f l = none) :
    getHeaderField (ls.foldl updateHeader h) f = getHeaderField h f := by
  induction ls generalizing h with
  | nil => rfl
  | cons a as ih =>
      simp only [List.foldl_cons]
      rw [ih _ (fun x hx => hnone x (List.mem_cons_of_mem a hx)),
        getHeaderField_updateHeader, hnone a (List.mem_cons_self a as)]

end IGCParser

/-- C1 counterexample: header decoding is not first-match-wins. With two
pilot lines carrying non-empty values `Alice` then `Bob`, the resulting
pilot field holds the later value `Bob`, not the earlier value `Alice`. -/
theorem header_first_match_wins_counterexample :
    (IGCParser.parseHeader ["HFPLTPILOT:Alice", "HFPLTPILOT:Bob"]).pilot = "Bob" ∧
      (IGCParser.parseHeader ["HFPLTPILOT:Alice", "HFPLTPILOT:Bob"]).pilot ≠ "Alice" := by
  refine ⟨?_, ?_⟩ <;> decide

/-- C1 (amended): header decoding is last-match-wins. If a line `l` writes a
value `v` into a header field and no later line writes that field, the
resulting header carries `v` in that field, whatever lines came before `l`
(in particular, of two lines matching the same field with non-empty values,
the later one determines the field). -/
theorem header_last_match_wins (f : IGCParser.HField) (pre post : List String)
    (l v : String)
    (hl : IGCParser.headerFieldUpdate f l = some v)
    (hpost : ∀ l2 ∈ post, IGCParser.headerFieldUpdate f l2 = none) :
    IGCParser.getHeaderField (IGCParser.parseHeader (pre ++ l :: post)) f = some v := by
  unfold IGCParser.parseHeader
  rw [List.foldl_append]
  simp only [List.foldl_cons]
  rw [IGCParser.getHeaderField_foldl_none f post _ hpost,
    IGCParser.getHeaderField_updateHeader, hl]

/-- Witness for C1 (amended): an earlier pilot line `Alice`, the deciding
line `Bob`, and a later date line that does not touch the pilot field. -/
theorem header_last_match_wins_witness :
    IGCParser.headerFieldUpdate IGCParser.HField.pilot "HFPLTPILOT:Bob" = some "Bob" ∧
      (∀ l2 ∈ ["HFDTE010203"],
        IGCParser.headerFieldUpdate IGCParser.HField.pilot l2 = none) ∧
      IGCParser.getHeaderField
          (IGCParser.parseHeader (["HFPLTPILOT:Alice"] ++ "HFPLTPILOT:Bob" :: ["HFDTE010203"]))
          IGCParser.HField.pilot = some "Bob" :=
  ⟨by decide, by decide,
    header_last_match_wins IGCParser.HField.pilot ["HFPLTPILOT:Alice"] ["HFDTE010203"]
      "HFPLTPILOT:Bob" "Bob" (by decide) (by decide)⟩

/-- C5 counterexample: removing a sub-35-character line can change the parse
result. The eight-character line `BHFPLT:X` is rejected by `parseBRecord`
(so it yields no fix), but the header scan still matches its embedded
`H[FO]PLT` pattern, so the log consisting of that line parses with pilot `X`
while the empty log parses with pilot `Unknown`. -/
theorem short_line_removal_counterexample :
    ("BHFPLT:X" : String).length < 35 ∧
      IGCParser.parseBRecord "BHFPLT:X" = none ∧
      (IGCParser.parseLines ["BHFPLT:X"]).header.pilot = "X" ∧
      (IGCParser.parseLines []).header.pilot = "Unknown" ∧
      IGCParser.parseLines ["BHFPLT:X"] ≠ IGCParser.parseLines [] := by
  refine ⟨by decide, by decide, by decide, by decide, ?_⟩
  intro heq
  have hp : (IGCParser.parseLines ["BHFPLT:X"]).header.pilot =
      (IGCParser.parseLines []).header.pilot := by rw [heq]
  rw [show (IGCParser.parseLines ["BHFPLT:X"]).header.pilot = "X" from by decide,
    show (IGCParser.parseLines []).header.pilot = "Unknown" from by decide] at hp
  exact absurd hp (by decide)

/-- C5 (amended): for every input line shorter than 35 characters,
`parseBRecord` returns no record (it is total, so no exception is possible),
and removing the line leaves the parsed fix sequence and the statistics
unchanged; the header, which scans every line for its patterns, may differ. -/
theorem short_line_skipped_fixes_unchanged (pre post : List String) (l : String)
    (hshort : l.length < 35) :
    IGCParser.parseBRecord l = none ∧
      (IGCParser.parseLines (pre ++ l :: post)).fixes =
        (IGCParser.parseLines (pre ++ post)).fixes ∧
      (IGCParser.parseLines (pre ++ l :: post)).stats =
        (IGCParser.parseLines (pre ++ post)).stats := by
  have hb : IGCParser.parseBRecord l = none := by
    simp only [IGCParser.parseBRecord, if_pos hshort]
  have hfl : IGCParser.fixOfLine l = none := by
    simp only [IGCParser.fixOfLine, hb]
    split <;> rfl
  have hfixes : (IGCParser.parseLines (pre ++ l :: post)).fixes =
      (IGCParser.parseLines (pre ++ post)).fixes := by
    simp only [IGCParser.parseLines, List.filterMap_append, List.filterMap_cons, hfl]
  refine ⟨hb, hfixes, ?_⟩
  simp only [IGCParser.parseLines] at hfixes ⊢
  rw [hfixes]

/-- Witness for C5 (amended) at `pre = []`, `post = []`, `l = "B"`. -/
theorem short_line_skipped_fixes_unchanged_witness :
    ("B" : String).length < 35 ∧
      (IGCParser.parseBRecord "B" = none ∧
        (IGCParser.parseLines ([] ++ "B" :: [])).fixes =
          (IGCParser.parseLines ([] ++ [])).fixes ∧
        (IGCParser.parseLines ([] ++ "B" :: [])).stats =
          (IGCParser.parseLines ([] ++ [])).stats) :=
  ⟨by decide, short_line_skipped_fixes_unchanged [] [] "B" (by decide)⟩

namespace WaypointGenerator

/-! ## Structural properties of generateWaypoints -/

/-- The budget guard at its call site is never satisfied: whatever the total
distance (a real value or `NaN`), the budget is at least 2. -/
lemma budget_guard_false (fixes : List FlightFix) (level : String) :
    ¬ budgetNonpositive
        ((calculateTotalDistance fixes).map (fun d => getTargetWaypointCount d level)) := by
  cases hcd : calculateTotalDistance fixes with
  | none => simp [budgetNonpositive]
  | some t =>
      have h2 := two_le_getTargetWaypointCount t level
      simp only [Option.map_some', budgetNonpositive]
      omega

/-- The number of interior waypoints is bounded by the slice count. -/
lemma selectedWaypoints_length_le (fixes : List FlightFix) (level : String)
    (mw : Option ℤ) : (selectedWaypoints fixes level mw).length ≤ sliceCount mw := by
  simp only [selectedWaypoints, List.length_map, List.enum_length, List.length_mergeSort]
  exact le_trans (List.length_take_le _ _) (le_refl _)

/-- The slice count of a budget computed by `getTargetWaypointCount` is at
most 13. -/
lemma sliceCount_budget_le_13 (dopt : Option ℝ) (level : String) :
    sliceCount (dopt.map (fun d => getTargetWaypointCount d level)) ≤ 13 := by
  cases dopt with
  | none => simp [sliceCount]
  | some d =>
      have := getTargetWaypointCount_le_13 d level
      simp only [Option.map_some', sliceCount]
      omega

/-- With exactly two fixes, sampling keeps both fixes with their indices. -/
lemma sampleFixes_pair (f0 f1 : FlightFix) :
    sampleFixes [f0, f1] = [(0, f0), (1, f1)] := by
  simp [sampleFixes, List.range_succ]

/-- With exactly two fixes there is no interior sampled point, so there are
no candidates and no interior waypoints. -/
lemma selectedWaypoints_pair (f0 f1 : FlightFix) (level : String) (mw : Option ℤ) :
    selectedWaypoints [f0, f1] level mw = [] := by
  simp only [selectedWaypoints, sampleFixes_pair]
  rw [show scanCandidates (turnThreshold level) [(0, f0), (1, f1)] = [] from rfl]
  simp

end WaypointGenerator

/-- A list of the form `a :: (xs ++ [b])` ends with `b`. -/
lemma getLast?_cons_append_singleton {α : Type} (a b : α) (xs : List α) :
    (a :: (xs ++ [b])).getLast? = some b := by
  rw [show a :: (xs ++ [b]) = (a :: xs) ++ [b] from rfl]
  exact List.getLast?_concat _

/-- C2: for every non-empty fix sequence and every level, the generated
waypoint sequence starts with a `TAKEOFF` waypoint copying the first fix's
latitude, longitude, pressure altitude and time, ends with a `LANDING`
waypoint copying the last fix, and has total length at most 15. -/
theorem waypoints_takeoff_landing_and_length (f0 : FlightFix) (rest : List FlightFix)
    (level : String) :
    (WaypointGenerator.generateWaypoints (f0 :: rest) level).head? =
        some (WaypointGenerator.takeoffWaypoint f0) ∧
      (WaypointGenerator.generateWaypoints (f0 :: rest) level).getLast? =
        some (WaypointGenerator.landingWaypoint
          ((f0 :: rest).getLast (List.cons_ne_nil f0 rest))) ∧
      (WaypointGenerator.generateWaypoints (f0 :: rest) level).length ≤ 15 := by
  simp only [WaypointGenerator.generateWaypoints]
  split_ifs with hguard
  · refine ⟨rfl, rfl, by norm_num⟩
  · refine ⟨rfl, getLast?_cons_append_singleton _ _ _, ?_⟩
    have hlen := WaypointGenerator.selectedWaypoints_length_le (f0 :: rest) level
      ((WaypointGenerator.calculateTotalDistance (f0 :: rest)).map
        (fun d => WaypointGenerator.getTargetWaypointCount d level))
    have hcap := WaypointGenerator.sliceCount_budget_le_13
      (WaypointGenerator.calculateTotalDistance (f0 :: rest)) level
    simp only [List.length_cons, List.length_append, List.length_nil]
    omega

/-- C6: for every flight with exactly two fixes and any level, the generator
returns exactly the takeoff and landing waypoints. -/
theorem two_fixes_give_takeoff_landing (f0 f1 : FlightFix) (level : String) :
    WaypointGenerator.generateWaypoints [f0, f1] level =
      [WaypointGenerator.takeoffWaypoint f0, WaypointGenerator.landingWaypoint f1] := by
  simp only [WaypointGenerator.generateWaypoints]
  rw [if_neg (WaypointGenerator.budget_guard_false [f0, f1] level)]
  rw [WaypointGenerator.selectedWaypoints_pair]
  simp [List.getLast]

/-- C7: the export size policy. Given the primary payload (GPX or CSV per the
caller's format choice) and the compact CSV payload: when the primary payload
exceeds 1500 characters and the compact payload also does, the export fails
with the too-many-waypoints outcome and no payload; when only the primary
exceeds 1500, the compact payload is exported; when the primary fits, it is
exported unchanged; and any exported payload is at most 1500 characters and
is exactly one of the two generated payloads (never a truncation). -/
theorem qr_size_policy (wps : List Waypoint) (format now level : String) (d c : String)
    (hd : (if format = "gpx" then WaypointGenerator.generateGPX now level wps
           else WaypointGenerator.generateCSV wps) = some d)
    (hc : WaypointGenerator.generateCompactCSV wps = some c) :
    (1500 < d.length → 1500 < c.length →
        WaypointGenerator.generateQRCode now level wps format =
          WaypointGenerator.QROutcome.tooMany) ∧
      (1500 < d.length → c.length ≤ 1500 →
        WaypointGenerator.generateQRCode now level wps format =
          WaypointGenerator.QROutcome.qr c) ∧
      (d.length ≤ 1500 →
        WaypointGenerator.generateQRCode now level wps format =
          WaypointGenerator.QROutcome.qr d) ∧
      (∀ p, WaypointGenerator.generateQRCode now level wps format =
          WaypointGenerator.QROutcome.qr p →
        p.length ≤ 1500 ∧ (p = d ∨ p = c)) := by
  simp only [WaypointGenerator.generateQRCode, hd, hc]
  refine ⟨?_, ?_, ?_, ?_⟩
  · intro h1 h2
    rw [if_pos h1, if_pos h2]
  · intro h1 h2
    rw [if_pos h1, if_neg (not_lt.mpr h2)]
  · intro h1
    rw [if_neg (not_lt.mpr h1)]
  · intro p hp
    split_ifs at hp with h1 h2 <;>
      (injection hp with h
       refine ⟨by rw [← h]; exact le_of_not_lt (by assumption), ?_⟩
       first
         | exact Or.inl h.symm
         | exact Or.inr h.symm)

/-- Witness for C7: a single-waypoint list whose CSV payload fits the budget
and is exported unchanged. -/
theorem qr_size_policy_witness :
    (if ("csv" : String) = "gpx" then
        WaypointGenerator.generateGPX "" "medium"
          [{ name := "TAKEOFF", lat := some 0, lng := some 0, altitude := some 0,
             time := "00:00:00" }]
      else
        WaypointGenerator.generateCSV
          [{ name := "TAKEOFF", lat := some 0, lng := some 0, altitude := some 0,
             time := "00:00:00" }]) =
      some "name,latitude,longitude,altitude\nTAKEOFF,0.000000,0.000000,0\n" ∧
    WaypointGenerator.generateCompactCSV
        [{ name := "TAKEOFF", lat := some 0, lng := some 0, altitude := some 0,
           time := "00:00:00" }] = some "TAKEOFF,0.00000,0.00000\n" ∧
    WaypointGenerator.generateQRCode "" "medium"
        [{ name := "TAKEOFF", lat := some 0, lng := some 0, altitude := some 0,
           time := "00:00:00" }] "csv" =
      WaypointGenerator.QROutcome.qr
        "name,latitude,longitude,altitude\nTAKEOFF,0.000000,0.000000,0\n" :=
  ⟨by decide, by decide,
    (qr_size_policy
        [{ name := "TAKEOFF", lat := some 0, lng := some 0, altitude := some 0,
           time := "00:00:00" }] "csv" "" "medium"
        "name,latitude,longitude,altitude\nTAKEOFF,0.000000,0.000000,0\n"
        "TAKEOFF,0.00000,0.00000\n" (by decide) (by decide)).2.2.1 (by decide)⟩
